import Mathlib

/-!
A shallow embedding of the biometric credential lifecycle of the
ReactNativeBiometrics demo app:

* `parseError` / `showErrorDialog` embed `src/utils/BiometricErrorHandler.ts`;
* `getBiometricCapabilities`, `serviceStoreCredentials`,
  `serviceGetStoredCredentials`, `serviceRemoveStoredCredentials` embed
  `src/services/BiometricAuthService.ts`, with the outcomes of the
  underlying OS keychain calls passed in explicitly (`ProbeOutcome`,
  `OsCall`, `KcReset`) and the single keychain slot made an explicit
  `Option StoredCredentials` value;
* `hookStoreCredentials`, `hookAuthenticateWithBiometrics`,
  `hookRemoveStoredCredentials`, `hookCheckStoredCredentials` embed the
  guards of `src/hooks/useBiometricAuth.ts`;
* `login` and `logout` embed `src/contexts/AuthContext.tsx`;
* `autoConds` / `autoStep` / `autoRun` embed the one-shot auto-attempt
  latch of the login screen (`autoAttemptedRef` and its `useEffect`).

Functions that the source wraps in try/catch are embedded as total
functions whose thrown-exception cases are explicit constructors of the
outcome parameters; a JavaScript function that can never throw to its
caller becomes a Lean function that is total by construction.
-/

/-- Executable substring test on character lists: `hasSub hay needle` is
`true` iff `needle` occurs contiguously inside `hay`.  This embeds
JavaScript's `String.prototype.includes`. -/
def hasSub : List Char → List Char → Bool
  | [], needle => needle.isEmpty
  | c :: t, needle => needle.isPrefixOf (c :: t) || hasSub t needle

/-- `strHasSub s pat` embeds `s.includes(pat)`. -/
def strHasSub (s pat : String) : Bool :=
  hasSub s.data pat.data

/-- `lowerStr` embeds `String.prototype.toLowerCase` (ASCII case fold,
which is all the classifier's keywords need). -/
def lowerStr (s : String) : String :=
  ⟨s.data.map Char.toLower⟩

/-- The closed taxonomy of error kinds produced by
`BiometricErrorHandler.parseError` (the `code` field). -/
inductive ErrorCode where
  | USER_CANCELLED
  | NOT_AVAILABLE
  | NOT_ENROLLED
  | AUTH_FAILED
  | LOCKOUT
  | HARDWARE_ERROR
  | SYSTEM_ERROR
  | UNKNOWN_ERROR
deriving DecidableEq

/-- Embeds the `BiometricError` interface of `BiometricErrorHandler.ts`. -/
structure BiometricError where
  code : ErrorCode
  message : String
  userMessage : String
  recoverable : Bool
deriving DecidableEq

/-- Embeds `BiometricErrorHandler.parseError`, starting from the derived
`errorMessage` string (the source first coerces an arbitrary thrown value
to that string).  The cascade of `if` tests is kept in source order:
first match wins. -/
def parseError (errorMessage : String) : BiometricError :=
  let lowerMessage := lowerStr errorMessage
  if strHasSub lowerMessage "cancel" || strHasSub lowerMessage "user cancel" then
    { code := ErrorCode.USER_CANCELLED, message := errorMessage,
      userMessage := "Xác thực đã bị hủy.", recoverable := true }
  else if strHasSub lowerMessage "not available" || strHasSub lowerMessage "not supported" then
    { code := ErrorCode.NOT_AVAILABLE, message := errorMessage,
      userMessage := "Đăng nhập sinh trắc học không khả dụng trên thiết bị này.",
      recoverable := false }
  else if strHasSub lowerMessage "not enrolled" || strHasSub lowerMessage "no biometric" then
    { code := ErrorCode.NOT_ENROLLED, message := errorMessage,
      userMessage := "Chưa thiết lập đăng nhập sinh trắc học trên thiết bị này. Vui lòng thiết lập trong cài đặt thiết bị.",
      recoverable := false }
  else if strHasSub lowerMessage "authentication failed" || strHasSub lowerMessage "failed" then
    { code := ErrorCode.AUTH_FAILED, message := errorMessage,
      userMessage := "Đăng nhập sinh trắc học thất bại. Vui lòng thử lại.",
      recoverable := true }
  else if strHasSub lowerMessage "too many" || strHasSub lowerMessage "lockout" then
    { code := ErrorCode.LOCKOUT, message := errorMessage,
      userMessage := "Quá nhiều lần thử thất bại. Vui lòng thử lại sau hoặc sử dụng mật khẩu thiết bị.",
      recoverable := false }
  else if strHasSub lowerMessage "hardware" || strHasSub lowerMessage "sensor" then
    { code := ErrorCode.HARDWARE_ERROR, message := errorMessage,
      userMessage := "Cảm biến sinh trắc học không khả dụng. Vui lòng thử lại sau.",
      recoverable := true }
  else if strHasSub lowerMessage "system" || strHasSub lowerMessage "internal" then
    { code := ErrorCode.SYSTEM_ERROR, message := errorMessage,
      userMessage := "Đã xảy ra lỗi hệ thống. Vui lòng thử lại.",
      recoverable := true }
  else
    { code := ErrorCode.UNKNOWN_ERROR, message := errorMessage,
      userMessage := "Đã xảy ra lỗi không mong muốn trong quá trình xác thực sinh trắc học.",
      recoverable := true }

/-- One button of a React Native alert dialog (`style: 'cancel'` is the
only style the error handler uses, tracked by `isCancelStyle`). -/
structure AlertButton where
  text : String
  isCancelStyle : Bool
deriving DecidableEq

/-- The dialog request handed to `Alert.alert`. -/
structure AlertDialog where
  title : String
  message : String
  buttons : List AlertButton
deriving DecidableEq

/-- The biometry types of `react-native-keychain`'s `BIOMETRY_TYPE`. -/
inductive BiometryType where
  | touchID
  | faceID
  | fingerprint
  | face
  | iris
deriving DecidableEq

/-- Embeds `BiometricErrorHandler.showErrorDialog`.  The source's
`onRetry` / `onFallback` optional callbacks are tracked by presence
flags; the result is `none` when the source returns without calling
`Alert.alert`, and `some` of the dialog it would show otherwise. -/
def showErrorDialog (e : BiometricError) (_biometryType : Option BiometryType)
    (hasRetry hasFallback : Bool) : Option AlertDialog :=
  match e.code with
  | ErrorCode.USER_CANCELLED => none
  | code =>
    let title :=
      match code with
      | ErrorCode.NOT_AVAILABLE => "Sinh trắc học không khả dụng"
      | ErrorCode.NOT_ENROLLED => "Chưa thiết lập sinh trắc học"
      | ErrorCode.AUTH_FAILED => "Đăng nhập sinh trắc học thất bại"
      | ErrorCode.LOCKOUT => "Quá nhiều lần thử"
      | ErrorCode.HARDWARE_ERROR => "Lỗi cảm biến"
      | ErrorCode.SYSTEM_ERROR => "Lỗi hệ thống"
      | _ => "Lỗi xác thực"
    let withFallback := if hasFallback then [AlertButton.mk "Dùng mật khẩu" false] else []
    let withRetry :=
      withFallback ++ (if e.recoverable && hasRetry then [AlertButton.mk "Thử lại" false] else [])
    let buttons :=
      withRetry ++ [AlertButton.mk (if withRetry.length > 0 then "Hủy" else "OK") true]
    some { title := title, message := e.userMessage, buttons := buttons }

/-- Outcome of `Keychain.getSupportedBiometryType()`: a biometry type,
`null`, or a thrown exception with the given message. -/
inductive ProbeOutcome where
  | found (t : BiometryType)
  | noneFound
  | threw (msg : String)

/-- Embeds the `BiometricCapabilities` interface. -/
structure BiometricCapabilities where
  isAvailable : Bool
  biometryType : Option BiometryType
  error : Option String
deriving DecidableEq

/-- Embeds `BiometricAuthService.getBiometricCapabilities`, a total
function of the OS probe's outcome: the source catches every exception,
so no outcome makes the embedded function fail. -/
def getBiometricCapabilities : ProbeOutcome → BiometricCapabilities
  | ProbeOutcome.found t =>
    { isAvailable := true, biometryType := some t, error := none }
  | ProbeOutcome.noneFound =>
    { isAvailable := false, biometryType := none,
      error := some "Biometric authentication is not available on this device" }
  | ProbeOutcome.threw msg =>
    { isAvailable := false, biometryType := none,
      error := some ("Error checking biometric capabilities: " ++ msg) }

/-- Embeds the `StoredCredentials` interface. -/
structure StoredCredentials where
  username : String
  password : String
deriving DecidableEq

/-- Embeds `BiometricAuthResult` (with the `& {credentials?}` extension
used by `getStoredCredentials`); absent optional fields are `none`. -/
structure BiometricAuthResult where
  success : Bool
  error : Option String := none
  cancelled : Option Bool := none
  credentials : Option StoredCredentials := none
deriving DecidableEq

/-- Outcome of one OS keychain call: it returns normally or throws an
exception carrying the given message. -/
inductive OsCall where
  | ok
  | threw (msg : String)

/-- Embeds `BiometricAuthService.storeCredentials`.  `slot` is the single
keychain slot before the call, `write` the outcome of
`Keychain.setGenericPassword`.  Returns the result, the slot after the
call, and how many times the keychain write was invoked. -/
def serviceStoreCredentials (probe : ProbeOutcome) (slot : Option StoredCredentials)
    (write : OsCall) (username password : String) :
    BiometricAuthResult × Option StoredCredentials × Nat :=
  if !(getBiometricCapabilities probe).isAvailable then
    ({ success := false, error := some "Biometric authentication is not available" }, slot, 0)
  else
    match write with
    | OsCall.ok =>
      ({ success := true }, some { username := username, password := password }, 1)
    | OsCall.threw m =>
      if strHasSub m "cancel" then
        ({ success := false, cancelled := some true,
           error := some "Authentication was cancelled by user" }, slot, 1)
      else
        ({ success := false, error := some ("Failed to store credentials: " ++ m) }, slot, 1)

/-- Embeds `BiometricAuthService.getStoredCredentials`.  `challenge` is
the outcome of `Keychain.getGenericPassword` (the biometric challenge);
on `ok` the stored slot is returned.  The second component counts the
keychain read invocations. -/
def serviceGetStoredCredentials (probe : ProbeOutcome) (slot : Option StoredCredentials)
    (challenge : OsCall) : BiometricAuthResult × Nat :=
  if !(getBiometricCapabilities probe).isAvailable then
    ({ success := false, error := some "Biometric authentication is not available" }, 0)
  else
    match challenge with
    | OsCall.ok =>
      match slot with
      | some creds => ({ success := true, credentials := some creds }, 1)
      | none => ({ success := false, error := some "No stored credentials found" }, 1)
    | OsCall.threw m =>
      if strHasSub m "cancel" then
        ({ success := false, cancelled := some true,
           error := some "Authentication was cancelled by user" }, 1)
      else
        ({ success := false, error := some ("Failed to retrieve credentials: " ++ m) }, 1)

/-- Outcome of `Keychain.resetGenericPassword`: the boolean it resolves
with, or a thrown exception. -/
inductive KcReset where
  | ok (deleted : Bool)
  | threw (msg : String)

/-- Embeds `BiometricAuthService.removeStoredCredentials`: returns the
result and the slot after the call. -/
def serviceRemoveStoredCredentials (slot : Option StoredCredentials) (r : KcReset) :
    BiometricAuthResult × Option StoredCredentials :=
  match r with
  | KcReset.ok deleted =>
    ({ success := deleted,
       error := if deleted then none else some "Failed to remove stored credentials" }, none)
  | KcReset.threw m =>
    ({ success := false, error := some ("Failed to remove credentials: " ++ m) }, slot)

/-- Embeds `useBiometricAuth.storeCredentials`: the hook's `isAvailable`
state guards the call before the service is reached. -/
def hookStoreCredentials (isAvailable : Bool) (probe : ProbeOutcome)
    (slot : Option StoredCredentials) (write : OsCall) (username password : String) :
    BiometricAuthResult × Option StoredCredentials × Nat :=
  if !isAvailable then
    ({ success := false,
       error := some "Biometric authentication is not available on this device" }, slot, 0)
  else
    serviceStoreCredentials probe slot write username password

/-- Embeds `useBiometricAuth.authenticateWithBiometrics`: the hook's
`isAvailable` and `hasStoredCredentials` states guard the call before
the service's keychain read is reached.  The second component counts the
underlying keychain read invocations. -/
def hookAuthenticateWithBiometrics (isAvailable hasStoredCredentials : Bool)
    (probe : ProbeOutcome) (slot : Option StoredCredentials) (challenge : OsCall) :
    BiometricAuthResult × Nat :=
  if !isAvailable then
    ({ success := false,
       error := some "Biometric authentication is not available on this device" }, 0)
  else if !hasStoredCredentials then
    ({ success := false,
       error := some "No stored credentials found. Please login with username and password first." }, 0)
  else
    serviceGetStoredCredentials probe slot challenge

/-- Embeds `useBiometricAuth.removeStoredCredentials`: on success the
hook's `hasStoredCredentials` state is set to `false`. -/
def hookRemoveStoredCredentials (slot : Option StoredCredentials) (hasStored : Bool)
    (r : KcReset) : BiometricAuthResult × Option StoredCredentials × Bool :=
  let res := serviceRemoveStoredCredentials slot r
  (res.1, res.2, if res.1.success then false else hasStored)

/-- Embeds `useBiometricAuth.checkStoredCredentials` composed with
`BiometricAuthService.hasStoredCredentials`: on a thrown OS check the
state falls back to `false` (both layers catch). -/
def hookCheckStoredCredentials (slot : Option StoredCredentials) : OsCall → Bool
  | OsCall.ok => slot.isSome
  | OsCall.threw _ => false

/-- Embeds the `User` interface of `AuthContext.tsx`. -/
structure User where
  id : String
  username : String
  email : String
deriving DecidableEq

/-- `MOCK_CREDENTIALS.username`. -/
def MOCK_USERNAME : String := "admin"

/-- `MOCK_CREDENTIALS.password`. -/
def MOCK_PASSWORD : String := "password123"

/-- Embeds `AuthProvider.login` (the 1s simulated delay has no effect on
the result): returns the boolean the promise resolves with and the user
state after the call (`none` = no session created). -/
def login (username password : String) : Bool × Option User :=
  if username == MOCK_USERNAME && password == MOCK_PASSWORD then
    (true, some { id := "1", username := username, email := username ++ "@example.com" })
  else
    (false, none)

/-- The mutable state `AuthProvider.logout` touches: the session user,
the keychain slot, the AsyncStorage keys, and the hook's
`hasStoredCredentials` flag. -/
structure SessionModel where
  user : Option User
  slot : Option StoredCredentials
  prefsKeys : List String
  hasStoredCredentials : Bool

/-- `isAuthenticated: !!user` of the auth context. -/
def isAuthenticated (st : SessionModel) : Bool :=
  st.user.isSome

/-- Embeds `UserPreferences.clearAllAppData`: the source catches every
exception internally, so a thrown AsyncStorage call leaves the keys
unchanged and nothing propagates. -/
def prefsClearAllAppData (keys : List String) : OsCall → List String
  | OsCall.ok => []
  | OsCall.threw _ => keys

/-- The four steps of `AuthProvider.logout`, in source order. -/
inductive LogoutEvent where
  | clearSession
  | removeCredential
  | clearPrefs
  | refreshState
deriving DecidableEq

/-- Embeds `AuthProvider.logout`.  Each awaited step (`kcReset` for the
keychain reset, `prefsOp` for the AsyncStorage clear, `checkOp` for the
existence re-check) is wrapped in its own try/catch in the source, so
each embedded step is total and the body runs to completion for every
outcome; the outer catch (which would re-clear the user) is therefore
unreachable.  Returns the final state and the ordered step trace. -/
def logout (st : SessionModel) (kcReset : KcReset) (prefsOp checkOp : OsCall) :
    SessionModel × List LogoutEvent :=
  let st1 : SessionModel := { st with user := none }
  let rem := hookRemoveStoredCredentials st1.slot st1.hasStoredCredentials kcReset
  let st2 : SessionModel := { st1 with slot := rem.2.1, hasStoredCredentials := rem.2.2 }
  let st3 : SessionModel := { st2 with prefsKeys := prefsClearAllAppData st2.prefsKeys prefsOp }
  let st4 : SessionModel := { st3 with hasStoredCredentials := hookCheckStoredCredentials st3.slot checkOp }
  (st4, [LogoutEvent.clearSession, LogoutEvent.removeCredential,
         LogoutEvent.clearPrefs, LogoutEvent.refreshState])

/-- The dependency values one evaluation of the login screen's
auto-attempt `useEffect` sees. -/
structure EvalConds where
  isBiometricAvailable : Bool
  hasBiometricCredentials : Bool
  isLoading : Bool
  isBiometricLoading : Bool
  biometricAttempted : Bool
deriving DecidableEq

/-- The effect's guard, minus the `autoAttemptedRef` latch (tracked
separately by `autoStep`). -/
def autoConds (c : EvalConds) : Bool :=
  c.isBiometricAvailable && c.hasBiometricCredentials && !c.isLoading &&
    !c.isBiometricLoading && !c.biometricAttempted

/-- One evaluation of the effect: when the guard holds and the latch is
unset, the latch is set synchronously and one attempt is triggered
(scheduled).  Returns the new latch value and the number of attempts
this evaluation triggers. -/
def autoStep (latch : Bool) (c : EvalConds) : Bool × Nat :=
  if autoConds c && !latch then (true, 1) else (latch, 0)

/-- A sequence of effect re-evaluations starting from latch state
`latch`: returns the final latch value and the total number of attempts
triggered. -/
def autoRun (latch : Bool) : List EvalConds → Bool × Nat
  | [] => (latch, 0)
  | c :: rest =>
    let s := autoStep latch c
    let r := autoRun s.1 rest
    (r.1, s.2 + r.2)

/-- Boolean form of the `AuthResult` invariant: `cancelled = true` forces
`success = false`, and a credential payload forces `success = true`. -/
def resultInvariant (r : BiometricAuthResult) : Bool :=
  (match r.cancelled with
   | some true => !r.success
   | _ => true) &&
  (match r.credentials with
   | some _ => r.success
   | none => true)

/-! ### Substring helper lemmas -/

/-- A needle that is a prefix of the haystack occurs in it. -/
theorem hasSub_of_prefixOf : ∀ (l b : List Char), b.isPrefixOf l = true → hasSub l b = true
  | [], b, h => by
    cases b with
    | nil => rfl
    | cons x xs => simp [List.isPrefixOf] at h
  | c :: t, b, h => by
    simp [hasSub, h]

/-- Dropping a front part of a prefix still leaves an occurrence. -/
theorem hasSub_of_prefixOf_append : ∀ (a l b : List Char),
    List.isPrefixOf (a ++ b) l = true → hasSub l b = true
  | [], l, b, h => hasSub_of_prefixOf l b (by simpa using h)
  | x :: a', l, b, h => by
    cases l with
    | nil => simp [List.isPrefixOf] at h
    | cons c t =>
      rw [List.cons_append] at h
      simp only [List.isPrefixOf, Bool.and_eq_true] at h
      have ih := hasSub_of_prefixOf_append a' t b h.2
      simp [hasSub, ih]

/-- If `a ++ b` occurs in `l`, then so does `b`. -/
theorem hasSub_append_left : ∀ (l a b : List Char),
    hasSub l (a ++ b) = true → hasSub l b = true
  | [], a, b, h => by
    simp only [hasSub, List.isEmpty_iff, List.append_eq_nil] at h
    simp [hasSub, h.2]
  | c :: t, a, b, h => by
    simp only [hasSub, Bool.or_eq_true] at h
    rcases h with h | h
    · exact hasSub_of_prefixOf_append a (c :: t) b h
    · have ih := hasSub_append_left t a b h
      simp [hasSub, ih]

/-- A string containing `"user cancel"` contains `"cancel"`. -/
theorem strHasSub_cancel_of_userCancel {s : String}
    (h : strHasSub s "user cancel" = true) : strHasSub s "cancel" = true := by
  have hd : ("user cancel" : String).data = ("user " : String).data ++ ("cancel" : String).data := by
    decide
  unfold strHasSub at h ⊢
  rw [hd] at h
  exact hasSub_append_left _ _ _ h

/-! ### Claim theorems -/

/-- Claim C1 (counterexample): the raw message
`"Authentication failed: user cancel"` contains `"failed"`, yet the
classifier returns `USER_CANCELLED` (rule 1 runs before rule 4), so the
claim that every string containing `"failed"` classifies as
`AUTH_FAILED` is false. -/
theorem classify_failed_cex :
    strHasSub (lowerStr "Authentication failed: user cancel") "failed" = true ∧
      (parseError "Authentication failed: user cancel").code = ErrorCode.USER_CANCELLED ∧
      (parseError "Authentication failed: user cancel").code ≠ ErrorCode.AUTH_FAILED :=
  ⟨by decide, by decide, by decide⟩

/-- Claim C1 (amended): for every raw error string whose lower-cased form
contains `"failed"` and matches none of the earlier rules (no `"cancel"`,
`"not available"`, `"not supported"`, `"not enrolled"`, `"no biometric"`),
classification yields `AUTH_FAILED`, even when a later rule's keyword
such as `"sensor"` or `"system"` is also present; in particular
`parseError "Authentication failed: sensor timeout"` is `AUTH_FAILED`,
not `HARDWARE_ERROR`. -/
theorem classify_failed_first_match :
    (∀ msg : String,
      strHasSub (lowerStr msg) "failed" = true →
      strHasSub (lowerStr msg) "cancel" = false →
      strHasSub (lowerStr msg) "not available" = false →
      strHasSub (lowerStr msg) "not supported" = false →
      strHasSub (lowerStr msg) "not enrolled" = false →
      strHasSub (lowerStr msg) "no biometric" = false →
      (parseError msg).code = ErrorCode.AUTH_FAILED) ∧
    (parseError "Authentication failed: sensor timeout").code = ErrorCode.AUTH_FAILED := by
  constructor
  · intro msg h1 h2 h3 h4 h5 h6
    have huc : strHasSub (lowerStr msg) "user cancel" = false := by
      rcases Bool.eq_false_or_eq_true (strHasSub (lowerStr msg) "user cancel") with h | h
      · have hc := strHasSub_cancel_of_userCancel h
        rw [hc] at h2
        simp at h2
      · exact h
    simp [parseError, h1, h2, h3, h4, h5, h6, huc]
  · decide

/-- Claim C1 witness: the amended rule applied to a concrete message
containing both `"failed"` and `"sensor"`. -/
theorem classify_failed_first_match_witness :
    (parseError "login failed: sensor timeout").code = ErrorCode.AUTH_FAILED :=
  classify_failed_first_match.1 "login failed: sensor timeout"
    (by decide) (by decide) (by decide) (by decide) (by decide) (by decide)

/-- Claim C2: every raw error string whose lower-cased form contains
`"cancel"` classifies as `USER_CANCELLED`, and presenting that error
produces no dialog (`showErrorDialog` returns `none` before building
any alert). -/
theorem cancel_classified_silent (msg : String) (bt : Option BiometryType)
    (hasRetry hasFallback : Bool) (h : strHasSub (lowerStr msg) "cancel" = true) :
    (parseError msg).code = ErrorCode.USER_CANCELLED ∧
      showErrorDialog (parseError msg) bt hasRetry hasFallback = none := by
  have hc : (parseError msg).code = ErrorCode.USER_CANCELLED := by
    simp [parseError, h]
  exact ⟨hc, by simp [showErrorDialog, hc]⟩

/-- Claim C2 witness: a concrete cancellation message is classified as
`USER_CANCELLED` and suppresses the dialog. -/
theorem cancel_classified_silent_witness :
    (parseError "User cancelled the operation").code = ErrorCode.USER_CANCELLED ∧
      showErrorDialog (parseError "User cancelled the operation") none true true = none :=
  cancel_classified_silent "User cancelled the operation" none true true (by decide)

/-- Claim C3: when the hook's `hasStoredCredentials` state is false (or
its capability state is unavailable), `authenticateWithBiometrics`
fails and the underlying keychain read is never invoked (the call
count stays 0). -/
theorem authenticate_guard_no_store_call (isAv hasStored : Bool) (probe : ProbeOutcome)
    (slot : Option StoredCredentials) (challenge : OsCall)
    (h : hasStored = false ∨ isAv = false) :
    (hookAuthenticateWithBiometrics isAv hasStored probe slot challenge).1.success = false ∧
      (hookAuthenticateWithBiometrics isAv hasStored probe slot challenge).2 = 0 := by
  rcases h with h | h
  · subst h
    cases isAv <;> simp [hookAuthenticateWithBiometrics]
  · subst h
    simp [hookAuthenticateWithBiometrics]

/-- Claim C3 witness: capability available but no stored credential —
the attempt fails with zero keychain reads. -/
theorem authenticate_guard_no_store_call_witness :
    (hookAuthenticateWithBiometrics true false (ProbeOutcome.found BiometryType.faceID)
        none OsCall.ok).1.success = false ∧
      (hookAuthenticateWithBiometrics true false (ProbeOutcome.found BiometryType.faceID)
        none OsCall.ok).2 = 0 :=
  authenticate_guard_no_store_call true false (ProbeOutcome.found BiometryType.faceID)
    none OsCall.ok (Or.inl rfl)

/-- Claim C4: storing when the capability probe reports unavailable
fails with a descriptive error and never invokes the keychain write,
both at the service layer and at the hook layer (whose own
`isAvailable` guard is false). -/
theorem store_guard_no_write (probe : ProbeOutcome) (slot : Option StoredCredentials)
    (write : OsCall) (u p : String)
    (h : (getBiometricCapabilities probe).isAvailable = false) :
    ((serviceStoreCredentials probe slot write u p).1.success = false ∧
      (serviceStoreCredentials probe slot write u p).1.error =
        some "Biometric authentication is not available" ∧
      (serviceStoreCredentials probe slot write u p).2.2 = 0) ∧
    ((hookStoreCredentials false probe slot write u p).1.success = false ∧
      (hookStoreCredentials false probe slot write u p).1.error =
        some "Biometric authentication is not available on this device" ∧
      (hookStoreCredentials false probe slot write u p).2.2 = 0) := by
  constructor
  · simp [serviceStoreCredentials, h]
  · simp [hookStoreCredentials]

/-- Claim C4 witness: a device with no supported biometry rejects the
store call with zero keychain writes. -/
theorem store_guard_no_write_witness :
    ((serviceStoreCredentials ProbeOutcome.noneFound none OsCall.ok "admin" "password123").1.success = false ∧
      (serviceStoreCredentials ProbeOutcome.noneFound none OsCall.ok "admin" "password123").1.error =
        some "Biometric authentication is not available" ∧
      (serviceStoreCredentials ProbeOutcome.noneFound none OsCall.ok "admin" "password123").2.2 = 0) ∧
    ((hookStoreCredentials false ProbeOutcome.noneFound none OsCall.ok "admin" "password123").1.success = false ∧
      (hookStoreCredentials false ProbeOutcome.noneFound none OsCall.ok "admin" "password123").1.error =
        some "Biometric authentication is not available on this device" ∧
      (hookStoreCredentials false ProbeOutcome.noneFound none OsCall.ok "admin" "password123").2.2 = 0) :=
  store_guard_no_write ProbeOutcome.noneFound none OsCall.ok "admin" "password123" rfl

/-- Claim C5: for any identifier/secret pair, a successful store (write
resolves, capability available) followed by a retrieve whose biometric
challenge succeeds returns exactly that pair. -/
theorem store_retrieve_roundtrip (probe1 probe2 : ProbeOutcome)
    (slot : Option StoredCredentials) (u p : String)
    (h1 : (getBiometricCapabilities probe1).isAvailable = true)
    (h2 : (getBiometricCapabilities probe2).isAvailable = true) :
    (serviceStoreCredentials probe1 slot OsCall.ok u p).1.success = true ∧
      (serviceGetStoredCredentials probe2
        (serviceStoreCredentials probe1 slot OsCall.ok u p).2.1 OsCall.ok).1.success = true ∧
      (serviceGetStoredCredentials probe2
        (serviceStoreCredentials probe1 slot OsCall.ok u p).2.1 OsCall.ok).1.credentials =
        some { username := u, password := p } := by
  simp [serviceStoreCredentials, serviceGetStoredCredentials, h1, h2]

/-- Claim C5 witness: `store("admin","password123")` then `retrieve()`
yields `{identifier:"admin", secret:"password123"}`. -/
theorem store_retrieve_roundtrip_witness :
    (serviceStoreCredentials (ProbeOutcome.found BiometryType.fingerprint) none OsCall.ok
        "admin" "password123").1.success = true ∧
      (serviceGetStoredCredentials (ProbeOutcome.found BiometryType.fingerprint)
        (serviceStoreCredentials (ProbeOutcome.found BiometryType.fingerprint) none OsCall.ok
          "admin" "password123").2.1 OsCall.ok).1.success = true ∧
      (serviceGetStoredCredentials (ProbeOutcome.found BiometryType.fingerprint)
        (serviceStoreCredentials (ProbeOutcome.found BiometryType.fingerprint) none OsCall.ok
          "admin" "password123").2.1 OsCall.ok).1.credentials =
        some { username := "admin", password := "password123" } :=
  store_retrieve_roundtrip (ProbeOutcome.found BiometryType.fingerprint)
    (ProbeOutcome.found BiometryType.fingerprint) none "admin" "password123" rfl rfl

/-- The store operation's result always satisfies the invariant. -/
theorem resultInvariant_serviceStore (probe : ProbeOutcome) (slot : Option StoredCredentials)
    (write : OsCall) (u p : String) :
    resultInvariant (serviceStoreCredentials probe slot write u p).1 = true := by
  unfold serviceStoreCredentials
  cases hb : (getBiometricCapabilities probe).isAvailable
  · simp [resultInvariant]
  · cases write with
    | ok => simp [resultInvariant]
    | threw m => cases hsc : strHasSub m "cancel" <;> simp [resultInvariant, hsc]

/-- The retrieve operation's result always satisfies the invariant. -/
theorem resultInvariant_serviceGet (probe : ProbeOutcome) (slot : Option StoredCredentials)
    (challenge : OsCall) :
    resultInvariant (serviceGetStoredCredentials probe slot challenge).1 = true := by
  unfold serviceGetStoredCredentials
  cases hb : (getBiometricCapabilities probe).isAvailable
  · simp [resultInvariant]
  · cases challenge with
    | ok => cases slot <;> simp [resultInvariant]
    | threw m => cases hsc : strHasSub m "cancel" <;> simp [resultInvariant, hsc]

/-- Claim C6: every result produced by the store/retrieve/authenticate
operations (service layer and hook layer) satisfies the invariant that
`cancelled = some true` implies `success = false` and that a credential
payload is present only when `success = true`. -/
theorem authResult_invariant (probe : ProbeOutcome) (slot : Option StoredCredentials)
    (write challenge : OsCall) (u p : String) (isAv hasStored : Bool) :
    resultInvariant (serviceStoreCredentials probe slot write u p).1 = true ∧
      resultInvariant (serviceGetStoredCredentials probe slot challenge).1 = true ∧
      resultInvariant (hookStoreCredentials isAv probe slot write u p).1 = true ∧
      resultInvariant (hookAuthenticateWithBiometrics isAv hasStored probe slot challenge).1 = true := by
  refine ⟨resultInvariant_serviceStore probe slot write u p,
    resultInvariant_serviceGet probe slot challenge, ?_, ?_⟩
  · cases isAv
    · simp [hookStoreCredentials, resultInvariant]
    · simpa [hookStoreCredentials] using resultInvariant_serviceStore probe slot write u p
  · cases isAv
    · simp [hookAuthenticateWithBiometrics, resultInvariant]
    · cases hasStored
      · simp [hookAuthenticateWithBiometrics, resultInvariant]
      · simpa [hookAuthenticateWithBiometrics] using resultInvariant_serviceGet probe slot challenge

/-- Claim C7: `logout` always completes (it is total for every outcome
of the keychain reset, the preference clear, and the existence
re-check — each wrapper catches internally, so the outer catch is
unreachable) and always leaves the session unauthenticated; its step
trace clears the in-memory session first, before credential removal,
preference clearing, and the state refresh. -/
theorem logout_always_unauthenticated (st : SessionModel) (kcReset : KcReset)
    (prefsOp checkOp : OsCall) :
    isAuthenticated (logout st kcReset prefsOp checkOp).1 = false ∧
      (logout st kcReset prefsOp checkOp).1.user = none ∧
      (logout st kcReset prefsOp checkOp).2 =
        [LogoutEvent.clearSession, LogoutEvent.removeCredential,
         LogoutEvent.clearPrefs, LogoutEvent.refreshState] := by
  refine ⟨?_, rfl, rfl⟩
  simp [isAuthenticated, logout]

/-- Claim C8: `login` succeeds exactly for the hardcoded mock pair —
`("admin","password123")` returns `true` and creates a session whose
user has identifier `"admin"`; any other pair returns `false` and
creates no session. -/
theorem login_mock_credentials_only :
    login "admin" "password123" =
      (true, some { id := "1", username := "admin", email := "admin@example.com" }) ∧
    (∀ u p : String, ¬(u = "admin" ∧ p = "password123") → login u p = (false, none)) := by
  constructor
  · decide
  · intro u p h
    have hb : (u == MOCK_USERNAME && p == MOCK_PASSWORD) = false := by
      by_cases hu : u = MOCK_USERNAME
      · by_cases hp : p = MOCK_PASSWORD
        · exact absurd (show u = "admin" ∧ p = "password123" from ⟨hu, hp⟩) h
        · have hpb : (p == MOCK_PASSWORD) = false := beq_eq_false_iff_ne.mpr hp
          simp [hpb]
      · have hub : (u == MOCK_USERNAME) = false := beq_eq_false_iff_ne.mpr hu
        simp [hub]
    simp [login, hb]

/-- Claim C8 witness: `login("admin","wrong")` returns `false` with no
session. -/
theorem login_mock_credentials_only_witness : login "admin" "wrong" = (false, none) :=
  login_mock_credentials_only.2 "admin" "wrong" (by decide)

/-- Claim C9: the capability probe is a total function of the OS query's
outcome (never throws to its caller — even a thrown OS exception is an
ordinary input constructor), a thrown exception surfaces as
`isAvailable = false` with the diagnostic message, and every
unavailable result carries an error message. -/
theorem probe_never_throws (m : String) :
    getBiometricCapabilities (ProbeOutcome.threw m) =
      { isAvailable := false, biometryType := none,
        error := some ("Error checking biometric capabilities: " ++ m) } ∧
    (∀ o : ProbeOutcome, (getBiometricCapabilities o).isAvailable = true ∨
      ((getBiometricCapabilities o).isAvailable = false ∧
        ((getBiometricCapabilities o).error).isSome = true)) := by
  refine ⟨rfl, ?_⟩
  intro o
  cases o <;> simp [getBiometricCapabilities]

/-- Once the latch is set, no later re-evaluation triggers an attempt. -/
theorem autoRun_latched : ∀ l : List EvalConds, autoRun true l = (true, 0)
  | [] => rfl
  | c :: rest => by
    have ih := autoRun_latched rest
    simp [autoRun, autoStep, ih]

/-- Claim C10: the auto-attempt latch is set synchronously at decision
time, so over any sequence of effect re-evaluations starting with the
latch unset, at most one automatic attempt is triggered; and if the
guard conditions {capability available, credential present, not
loading, not already attempted} hold at every re-evaluation of a
non-empty sequence, exactly one attempt is triggered. -/
theorem auto_attempt_once :
    (∀ evals : List EvalConds, (autoRun false evals).2 ≤ 1) ∧
    (∀ evals : List EvalConds, evals ≠ [] →
      (∀ c ∈ evals, autoConds c = true) → (autoRun false evals).2 = 1) := by
  constructor
  · intro evals
    induction evals with
    | nil => simp [autoRun]
    | cons c rest ih =>
      cases hc : autoConds c
      · simpa [autoRun, autoStep, hc] using ih
      · simp [autoRun, autoStep, hc, autoRun_latched rest]
  · intro evals hne hall
    cases evals with
    | nil => exact absurd rfl hne
    | cons c rest =>
      have hc : autoConds c = true := hall c (List.mem_cons_self c rest)
      simp [autoRun, autoStep, hc, autoRun_latched rest]

/-- Claim C10 witness: three rapid re-evaluations with capability
available and a credential present trigger exactly one attempt. -/
theorem auto_attempt_once_witness :
    (autoRun false
      [EvalConds.mk true true false false false,
       EvalConds.mk true true false false false,
       EvalConds.mk true true false false false]).2 = 1 :=
  auto_attempt_once.2
    [EvalConds.mk true true false false false,
     EvalConds.mk true true false false false,
     EvalConds.mk true true false false false] (by decide) (by decide)
